import Mathlib

/-!
Shallow embedding of the block-range delta-cache executor
(`examples/stable_diffusion_3_boost/infer/transformer_sd3_cache.py`) and the
spatial-downsampling joint attention processor
(`examples/stable_diffusion_3_boost/infer/attention_cache.py`).

Tensors of the executor are modelled as flattened lists of integers with
elementwise addition/subtraction (the claims under study are structural:
they hold for any deterministic elementwise `+`/`-`).  Python expressions
that raise (`tensor + None`, `None.copy()`, `None - tensor`, list index out
of range, integer division by zero, invalid reshape) are modelled with
`Except String`.  The numeric kernels inside a transformer stage
(normalisation, attention, feed-forward) are out-of-scope opaque operators
per the design document, so a stage is an opaque function carried by the
stage-stack data, while every line of the executor itself is translated.
-/

/-- Flattened tensor data; `+`/`-` on `ms.Tensor` is deterministic and
elementwise, which is all the executor-level claims depend on. -/
abbrev Tensor := List Int

/-- Elementwise tensor addition (`a + b` on two tensors). -/
def addT (a b : Tensor) : Tensor := List.zipWith (· + ·) a b

/-- Elementwise tensor subtraction (`a - b` on two tensors). -/
def subT (a b : Tensor) : Tensor := List.zipWith (· - ·) a b

/-- Python `tensor + x` where `x` may be `None` (as in
`hidden_states_before_cache + delta_cache`): adding `None` raises. -/
def addOpt (a : Tensor) : Option Tensor → Except String Tensor
  | some b => .ok (addT a b)
  | none => .error "TypeError: unsupported operand types for add: Tensor and NoneType"

/-- Python `x.copy()` where `x` may be `None` (as in
`encoder_hidden_states.copy()`): `None.copy()` raises; copying a tensor
yields an equal value. -/
def copyOpt : Option Tensor → Except String Tensor
  | some t => .ok t
  | none => .error "AttributeError: NoneType object has no attribute copy"

/-- Python `x - b` where `x` may be `None` (as in
`encoder_hidden_states - encoder_hidden_states_before_cache`). -/
def subOptL : Option Tensor → Tensor → Except String Tensor
  | some a, b => .ok (subT a b)
  | none, _ => .error "TypeError: unsupported operand types for sub: NoneType and Tensor"

/-- One `JointTransformerCacheBlock`.  `run hidden encoder temb` returns the
pair `(encoder_hidden_states, hidden_states)` exactly as the block's
`construct` does; its numeric body (norms, attention, feed-forward) is the
out-of-scope kernel, hence an opaque function of the stage value.
`context_pre_only` is the per-stage flag read by the executor. -/
structure TransformerBlock where
  context_pre_only : Bool
  run : Tensor → Option Tensor → Tensor → Option Tensor × Tensor

/-- The stage stack `self.transformer_blocks` of `SD3Transformer2DModelCache`. -/
structure CacheModel where
  blocks : List TransformerBlock

/-- The 4-tuple `cache_params = (cache_start, step_stride, window_length,
start_use_step)`; the executor reads only `cache_params[0]` and
`cache_params[2]`. -/
structure CacheParams where
  cache_start : Nat
  step_stride : Nat
  window_length : Nat
  start_use_step : Nat

/-- The loop body of `forward_blocks_range`: iterate the given slice of
blocks, `index_block` being the `enumerate` counter (local to the slice,
starting at 0).  After each block with `context_pre_only == False`, if
controlnet residuals are supplied, add
`residuals[index_block // (total_blocks // len(residuals))]` to the hidden
states; Python `ZeroDivisionError` and `IndexError` become `.error`. -/
def run_blocks (total_blocks : Nat) (residuals : Option (List Tensor)) (temb : Tensor) :
    List TransformerBlock → Nat → Tensor → Option Tensor → Except String (Tensor × Option Tensor)
  | [], _, hidden, encoder => .ok (hidden, encoder)
  | b :: rest, index_block, hidden, encoder =>
    let out := b.run hidden encoder temb
    match residuals with
    | none => run_blocks total_blocks residuals temb rest (index_block + 1) out.2 out.1
    | some rs =>
      if b.context_pre_only = false then
        if rs.length = 0 then
          .error "ZeroDivisionError: integer division or modulo by zero"
        else
          let interval_control := total_blocks / rs.length
          if interval_control = 0 then
            .error "ZeroDivisionError: integer division or modulo by zero"
          else
            match rs.get? (index_block / interval_control) with
            | none => .error "IndexError: list index out of range"
            | some r =>
              run_blocks total_blocks residuals temb rest (index_block + 1) (addT out.2 r) out.1
      else
        run_blocks total_blocks residuals temb rest (index_block + 1) out.2 out.1

/-- `SD3Transformer2DModelCache.forward_blocks_range`: execute the Python
slice `self.transformer_blocks[start_idx:end_idx]` in order, returning
`(hidden_states, encoder_hidden_states)`. -/
def forward_blocks_range (m : CacheModel) (hidden : Tensor) (encoder : Option Tensor)
    (residuals : Option (List Tensor)) (temb : Tensor) (start_idx end_idx : Nat) :
    Except String (Tensor × Option Tensor) :=
  run_blocks m.blocks.length residuals temb
    ((m.blocks.drop start_idx).take (end_idx - start_idx)) 0 hidden encoder

/-- `SD3Transformer2DModelCache.forward_blocks`: the delta-cache executor.
Returns `((encoder_hidden_states, hidden_states), delta_cache,
delta_cache_hidden)`.  `use_cache = false` executes `[0, N)` in one range
call; otherwise `[0, cache_start)` is executed, both states are
snapshotted, then either the window `[cache_start, cache_end)` is executed
and the two deltas recomputed (`if_skip = false`) or the snapshots plus the
supplied deltas replace the window (`if_skip = true`), and finally
`[cache_end, N)` is executed. -/
def forward_blocks (m : CacheModel) (hidden : Tensor) (encoder : Option Tensor)
    (residuals : Option (List Tensor)) (temb : Tensor)
    (use_cache if_skip : Bool) (cache_params : CacheParams)
    (delta_cache delta_cache_hidden : Option Tensor) :
    Except String ((Option Tensor × Tensor) × Option Tensor × Option Tensor) :=
  match use_cache with
  | false =>
    match forward_blocks_range m hidden encoder residuals temb 0 m.blocks.length with
    | .error e => .error e
    | .ok (h, enc) => .ok ((enc, h), delta_cache, delta_cache_hidden)
  | true =>
    match forward_blocks_range m hidden encoder residuals temb 0 cache_params.cache_start with
    | .error e => .error e
    | .ok (h1, e1) =>
      let cache_end := cache_params.cache_start + cache_params.window_length
      let hidden_before := h1
      match copyOpt e1 with
      | .error e => .error e
      | .ok enc_before =>
        match if_skip with
        | false =>
          match forward_blocks_range m h1 e1 residuals temb cache_params.cache_start cache_end with
          | .error e => .error e
          | .ok (h2, e2) =>
            let dc := subT h2 hidden_before
            match subOptL e2 enc_before with
            | .error e => .error e
            | .ok dch =>
              match forward_blocks_range m h2 e2 residuals temb cache_end m.blocks.length with
              | .error e => .error e
              | .ok (h3, e3) => .ok ((e3, h3), some dc, some dch)
        | true =>
          match addOpt hidden_before delta_cache with
          | .error e => .error e
          | .ok h2 =>
            match addOpt enc_before delta_cache_hidden with
            | .error e => .error e
            | .ok e2 =>
              match forward_blocks_range m h2 (some e2) residuals temb cache_end m.blocks.length with
              | .error e => .error e
              | .ok (h3, e3) => .ok ((e3, h3), delta_cache, delta_cache_hidden)

/-- Rank-3 tensor shape `(batch, sequence_length, channels)`; the states
flowing through the joint attention processor in this repository are rank-3
(the processor's `input_ndim == 4` unflatten branch is never taken by the
stage stack, which always passes `(batch, seq, channel)` states). -/
structure Shape3 where
  batch : Nat
  seq : Nat
  channel : Nat
deriving DecidableEq, Repr

/-- Shape contract of a linear projection (`to_q`, `to_k`, `to_v`,
`add_q_proj`, `add_k_proj`, `add_v_proj`, `to_out[0]`, `to_add_out`):
batch and sequence preserved, channel replaced by the output features. -/
def proj (out_ch : Nat) (s : Shape3) : Shape3 := ⟨s.batch, s.seq, out_ch⟩

/-- Shape contract of `ops.cat([a, b], axis=1)`: sequence lengths add;
mismatched batch or channel raises. -/
def catSeq (a b : Shape3) : Except String Shape3 :=
  if a.batch = b.batch ∧ a.channel = b.channel then
    .ok ⟨a.batch, a.seq + b.seq, a.channel⟩
  else .error "ValueError: concat shape mismatch"

/-- Shape contract of `attn.head_to_batch_dim`. -/
def head_to_batch_dim (heads : Nat) (s : Shape3) : Shape3 :=
  ⟨s.batch * heads, s.seq, s.channel / heads⟩

/-- Shape contract of `attn.batch_to_head_dim`. -/
def batch_to_head_dim (heads : Nat) (s : Shape3) : Shape3 :=
  ⟨s.batch / heads, s.seq, s.channel * heads⟩

/-- Shape contract of the scaled-dot-product attention kernel
(`FlashAttentionScore`): output takes the query's batch and sequence and
the value's channel; batch mismatch, query/key head-dim mismatch or
key/value sequence mismatch raises. -/
def flashAttnShape (q k v : Shape3) : Except String Shape3 :=
  if q.batch = k.batch ∧ k.batch = v.batch ∧ q.channel = k.channel ∧ k.seq = v.seq then
    .ok ⟨q.batch, q.seq, v.channel⟩
  else .error "ValueError: attention shape mismatch"

/-- Shape of Python `t[:, :n]` (slicing clamps, never raises). -/
def sliceSeqTo (n : Nat) (s : Shape3) : Shape3 := ⟨s.batch, min n s.seq, s.channel⟩

/-- Shape of Python `t[:, n:]` (length is truncated subtraction). -/
def sliceSeqFrom (n : Nat) (s : Shape3) : Shape3 := ⟨s.batch, s.seq - n, s.channel⟩

/-- Integer square root, the value of Python `int(math.sqrt(L))`: the
largest `k` with `k * k ≤ n` (exact for every `n` whose square root fits
the float mantissa, which covers all sequence lengths in scope). -/
def isqrt (n : Nat) : Nat :=
  ((List.range (n + 1)).filter fun k => k * k ≤ n).foldl max 0

/-- Python `int(h / merge_factor)` in IEEE-754 double arithmetic, computed
exactly: the integer `h` converts to a double exactly (all values in scope
are far below `2^53`), the divisor is the double `mf_num / 2^mf_den_log2`,
the quotient `num / den` is rounded to the nearest double (53-bit
significand `m` scaled into `[2^52, 2^53)`, ties to even) and `int`
truncates toward zero, giving `m / 2^t`.  Quotients at or above `2^52` are
integers beyond double spacing 1 and outside the operating range; they
fall back to exact integer division.  Cross-checked value for value
against CPython `int(h / 2.2)` for every `h` up to 2000. -/
def float_int_div (h mf_num mf_den_log2 : Nat) : Nat :=
  let num := h * 2 ^ mf_den_log2
  let den := mf_num
  if den * 2 ^ 52 ≤ num then num / den
  else
    let t := ((List.range 200).find? fun t => den * 2 ^ 52 ≤ num * 2 ^ t).getD 0
    let a := num * 2 ^ t
    let q := a / den
    let r := a % den
    let m := if 2 * r < den then q else if den < 2 * r then q + 1 else if q % 2 = 0 then q else q + 1
    m / 2 ^ t

/-- `downsample(hidden_states, merge_factor, method)` at the shape level,
with the merge factor passed as the exact dyadic rational
`mf_num / 2^mf_den_log2` of its double representation (the call site's
float literal `2.2` is the double `2476979795053773 / 2^50`, slightly
above `11/5`).  `cur_h = int(math.sqrt(L))`; `new_h = int(cur_h /
merge_factor)` follows IEEE double arithmetic via `float_int_div`; the
`reshape(batch, channel, cur_h, cur_w)` raises whenever the element
counts disagree (it never silently drops data); `ops.interpolate` then
resizes the spatial grid to `(new_h, new_w)` and the result is flattened
back to rank 3.  `method` selects the interpolation mode, which does not
affect shapes. -/
def downsample (mf_num mf_den_log2 : Nat) (method : String) (s : Shape3) : Except String Shape3 :=
  let cur_h := isqrt s.seq
  let cur_w := cur_h
  let new_h := float_int_div cur_h mf_num mf_den_log2
  let new_w := new_h
  if s.batch * s.channel * s.seq = s.batch * s.channel * (cur_h * cur_w) then
    .ok ⟨s.batch, new_h * new_w, s.channel⟩
  else .error "ValueError: cannot reshape, element count mismatch"

/-- The key/value source selection inside `JointAttnProcessor.__call__`:
`query` is projected from the original hidden states, then
`if use_downsample and layer_idx <= 11: hidden_states =
downsample(hidden_states, 2.2, method="bilinear")` before the key/value
projections. -/
def kv_input (layer_idx : Nat) (use_downsample : Bool) (hidden : Shape3) :
    Except String Shape3 :=
  if use_downsample = true ∧ layer_idx ≤ 11 then downsample 2476979795053773 50 "bilinear" hidden
  else .ok hidden

/-- Dimension configuration of one `Attention` module: head count, output
features of the q/k/v and added-projection linears (`inner_dim`), of
`to_out[0]` (`out_dim`) and of `to_add_out` (`add_out_dim`), plus the
`context_pre_only` flag. -/
structure AttnCfg where
  heads : Nat
  inner_dim : Nat
  out_dim : Nat
  add_out_dim : Nat
  context_pre_only : Bool
deriving DecidableEq, Repr

/-- `JointAttnProcessor.__call__` at the shape level (rank-3 inputs, the
path taken by every call site in this repository): project q from the
original hidden states, optionally downsample the hidden states before the
k/v projections (`kv_input`), project the encoder q/k/v, concatenate the
two streams along the sequence axis, run one joint attention, split at the
original (`residual`) primary sequence length, and apply the per-stream
output projections (`to_add_out` skipped when `context_pre_only`). -/
def jointAttnShape (attn : AttnCfg) (hidden encoder : Shape3)
    (layer_idx : Nat) (use_downsample : Bool) : Except String (Shape3 × Shape3) :=
  let residual := hidden
  let query := proj attn.inner_dim hidden
  match kv_input layer_idx use_downsample hidden with
  | .error e => .error e
  | .ok hs =>
    let key := proj attn.inner_dim hs
    let value := proj attn.inner_dim hs
    let ehq := proj attn.inner_dim encoder
    let ehk := proj attn.inner_dim encoder
    let ehv := proj attn.inner_dim encoder
    match catSeq query ehq with
    | .error e => .error e
    | .ok q2 =>
      match catSeq key ehk with
      | .error e => .error e
      | .ok k2 =>
        match catSeq value ehv with
        | .error e => .error e
        | .ok v2 =>
          let q3 := head_to_batch_dim attn.heads q2
          let k3 := head_to_batch_dim attn.heads k2
          let v3 := head_to_batch_dim attn.heads v2
          match flashAttnShape q3 k3 v3 with
          | .error e => .error e
          | .ok att =>
            let att2 := batch_to_head_dim attn.heads att
            let hOut := sliceSeqTo residual.seq att2
            let eOut := sliceSeqFrom residual.seq att2
            let hOut2 := proj attn.out_dim hOut
            let eOut2 := if attn.context_pre_only then eOut else proj attn.add_out_dim eOut
            .ok (hOut2, eOut2)

/-- Runtime success test for an executor invocation (Python: the call
returned instead of raising). -/
def isSuccess {α : Type} : Except String α → Bool
  | .ok _ => true
  | .error _ => false

/-- A concrete non-terminal stage whose kernel is the identity on both
streams (`context_pre_only = False`), used to evaluate the executor on
closed inputs. -/
def idBlock : TransformerBlock := ⟨false, fun h e _ => (e, h)⟩

/-- A concrete terminal stage (`context_pre_only = True`): per the block
code, its auxiliary output is `None`. -/
def termBlock : TransformerBlock := ⟨true, fun h _ _ => (none, h)⟩

/-- A three-stage stack of non-terminal identity stages. -/
def m3 : CacheModel := ⟨[idBlock, idBlock, idBlock]⟩

/-- A two-stage stack whose last stage is terminal, mirroring the reference
configuration `context_pre_only=(i == num_layers - 1)`. -/
def m2ref : CacheModel := ⟨[idBlock, termBlock]⟩

/-- Three distinct controlnet residual tensors, one bucket per stage of `m3`. -/
def rs3 : List Tensor := [[1], [10], [100]]

/-- A concrete attention configuration: 2 heads, inner dimension 8,
primary output projection to 5 channels, auxiliary to 6, non-terminal. -/
def attnW : AttnCfg := ⟨2, 8, 5, 6, false⟩

/-- Executing the empty Python slice `[k:k]` returns the states unchanged. -/
theorem forward_blocks_range_empty (m : CacheModel) (hidden : Tensor)
    (encoder : Option Tensor) (residuals : Option (List Tensor)) (temb : Tensor) (k : Nat) :
    forward_blocks_range m hidden encoder residuals temb k k = .ok (hidden, encoder) := by
  unfold forward_blocks_range
  rw [Nat.sub_self]
  rfl

/-- Claim C1: in CACHE_SKIP mode (`use_cache=true`, `if_skip=true`), for
every input and every supplied delta pair, the state entering the
post-window zone is exactly the pre-window snapshot plus the externally
supplied delta, on both the primary and auxiliary streams, and the delta
tensors are returned to the caller unchanged. -/
theorem cache_skip_applies_delta_exactly
    (m : CacheModel) (hidden : Tensor) (encoder : Option Tensor)
    (residuals : Option (List Tensor)) (temb : Tensor) (cp : CacheParams)
    (dc dch h1 e1 : Tensor)
    (pre : forward_blocks_range m hidden encoder residuals temb 0 cp.cache_start
      = .ok (h1, some e1)) :
    forward_blocks m hidden encoder residuals temb true true cp (some dc) (some dch)
      = Except.map (fun p => ((p.2, p.1), some dc, some dch))
          (forward_blocks_range m (addT h1 dc) (some (addT e1 dch)) residuals temb
            (cp.cache_start + cp.window_length) m.blocks.length) := by
  unfold forward_blocks
  rw [pre]
  cases hpost : forward_blocks_range m (addT h1 dc) (some (addT e1 dch)) residuals temb
      (cp.cache_start + cp.window_length) m.blocks.length with
  | error e => simp [copyOpt, addOpt, Except.map, hpost]
  | ok p => obtain ⟨h3, e3⟩ := p; simp [copyOpt, addOpt, Except.map, hpost]

/-- Witness for C1 at a concrete input. -/
theorem cache_skip_applies_delta_exactly_witness :
    forward_blocks m3 [5] (some [7]) none [0] true true ⟨1, 0, 1, 0⟩ (some [2]) (some [3])
      = Except.map (fun p => ((p.2, p.1), some [2], some [3]))
          (forward_blocks_range m3 [7] (some [10]) none [0] 2 3) :=
  cache_skip_applies_delta_exactly m3 [5] (some [7]) none [0] ⟨1, 0, 1, 0⟩ [2] [3] [5] [7] rfl

/-- Claim C2: in CACHE_RECOMPUTE mode (`use_cache=true`, `if_skip=false`),
the returned delta artifacts are exactly (state after the window) minus
(state before the window) on both streams, are produced only after the
window is fully executed, and do not depend on the incoming delta
arguments. -/
theorem cache_recompute_delta_is_window_difference
    (m : CacheModel) (hidden : Tensor) (encoder : Option Tensor)
    (residuals : Option (List Tensor)) (temb : Tensor) (cp : CacheParams)
    (dc0 dch0 : Option Tensor) (h1 e1 h2 e2 : Tensor)
    (pre : forward_blocks_range m hidden encoder residuals temb 0 cp.cache_start
      = .ok (h1, some e1))
    (win : forward_blocks_range m h1 (some e1) residuals temb cp.cache_start
      (cp.cache_start + cp.window_length) = .ok (h2, some e2)) :
    forward_blocks m hidden encoder residuals temb true false cp dc0 dch0
      = Except.map (fun p => ((p.2, p.1), some (subT h2 h1), some (subT e2 e1)))
          (forward_blocks_range m h2 (some e2) residuals temb
            (cp.cache_start + cp.window_length) m.blocks.length) := by
  unfold forward_blocks
  rw [pre]
  cases hpost : forward_blocks_range m h2 (some e2) residuals temb
      (cp.cache_start + cp.window_length) m.blocks.length with
  | error e => simp [copyOpt, subOptL, Except.map, hpost, win]
  | ok p => obtain ⟨h3, e3⟩ := p; simp [copyOpt, subOptL, Except.map, hpost, win]

/-- Witness for C2 at a concrete input. -/
theorem cache_recompute_delta_is_window_difference_witness :
    forward_blocks m3 [5] (some [7]) none [0] true false ⟨1, 0, 1, 0⟩ none none
      = Except.map (fun p => ((p.2, p.1), some [0], some [0]))
          (forward_blocks_range m3 [5] (some [7]) none [0] 2 3) :=
  cache_recompute_delta_is_window_difference m3 [5] (some [7]) none [0] ⟨1, 0, 1, 0⟩
    none none [5] [7] [5] [7] rfl rfl

/-- Claim C3 (code bug evaluation): with controlnet residuals supplied, a
NO_CACHE run and a CACHE_RECOMPUTE run over the same three-stage stack of
identity kernels disagree on the output of stage 2, which lies outside the
window `[1, 2)`: `forward_blocks_range` restarts the residual index at 0
for every segment, so the post-window segment re-adds residual 0 instead of
residual 2. -/
theorem controlnet_residuals_break_zone_invariance :
    forward_blocks m3 [0] (some [0]) (some rs3) [0] false false ⟨1, 0, 1, 0⟩ none none
      = .ok ((some [0], [111]), none, none)
    ∧ forward_blocks m3 [0] (some [0]) (some rs3) [0] true false ⟨1, 0, 1, 0⟩ none none
      = .ok ((some [0], [3]), some [1], some [0])
    ∧ ([111] : Tensor) ≠ [3] :=
  ⟨rfl, rfl, by decide⟩

/-- Claim C4 (code bug evaluation): executing the range `[1, 2)` of a
three-stage stack with three controlnet residuals adds
`residuals[0] = [1]` after the stage of global index 1 (the loop index is
local to the slice), not `residuals[1 // 1] = [10]` as the global-index
bucket rule states. -/
theorem residual_index_is_range_local :
    forward_blocks_range m3 [0] (some [0]) (some rs3) [0] 1 2 = .ok ([1], some [0])
    ∧ ([1] : Tensor) ≠ [10] :=
  ⟨rfl, by decide⟩

/-- Claim C5 (counterexample): on a stack whose last stage is terminal
(`context_pre_only`), exactly as in the reference configuration, the
CACHE_RECOMPUTE invocation with a window spanning the whole stack raises
(`None - tensor` when computing the auxiliary delta) while the NO_CACHE
invocation returns, so the two outputs are not equal. -/
theorem whole_stack_recompute_raises_on_terminal_stage :
    forward_blocks m2ref [0] (some [0]) none [0] true false ⟨0, 0, 2, 0⟩ none none
      = .error "TypeError: unsupported operand types for sub: NoneType and Tensor"
    ∧ forward_blocks m2ref [0] (some [0]) none [0] false false ⟨0, 0, 2, 0⟩ none none
      = .ok ((none, [0]), none, none) :=
  ⟨rfl, rfl⟩

/-- Claim C5 (amended): NO_CACHE output equals the CACHE_RECOMPUTE output
under a window spanning the whole stack, provided the auxiliary stream is
still present at the end of the full range (in the reference configuration
the terminal stage inside the window sets it to `None`, and whole-stack
recompute then raises while computing the auxiliary delta). -/
theorem no_cache_equals_whole_stack_recompute
    (m : CacheModel) (hidden e : Tensor) (residuals : Option (List Tensor))
    (temb : Tensor) (dc dch : Option Tensor) (h2 e2 : Tensor) (cp cpw : CacheParams)
    (win : forward_blocks_range m hidden (some e) residuals temb 0 m.blocks.length
      = .ok (h2, some e2))
    (cs0 : cpw.cache_start = 0) (wlN : cpw.window_length = m.blocks.length) :
    forward_blocks m hidden (some e) residuals temb false false cp dc dch
      = .ok ((some e2, h2), dc, dch)
    ∧ forward_blocks m hidden (some e) residuals temb true false cpw dc dch
      = .ok ((some e2, h2), some (subT h2 hidden), some (subT e2 e)) := by
  constructor
  · unfold forward_blocks
    rw [win]
  · unfold forward_blocks
    rw [cs0, wlN, Nat.zero_add, forward_blocks_range_empty]
    simp only [copyOpt]
    rw [win]
    simp only [subOptL]
    rw [forward_blocks_range_empty]

/-- Witness for C5 (amended) at a concrete input. -/
theorem no_cache_equals_whole_stack_recompute_witness :
    forward_blocks m3 [5] (some [7]) none [0] false false ⟨1, 2, 3, 4⟩ none none
      = .ok ((some [7], [5]), none, none)
    ∧ forward_blocks m3 [5] (some [7]) none [0] true false ⟨0, 4, 3, 9⟩ none none
      = .ok ((some [7], [5]), some [0], some [0]) :=
  no_cache_equals_whole_stack_recompute m3 [5] [7] none [0] none none [5] [7]
    ⟨1, 2, 3, 4⟩ ⟨0, 4, 3, 9⟩ rfl rfl rfl

/-- Claim C6: a CACHE_SKIP invocation (`use_cache=true`, `if_skip=true`)
with no prior primary delta supplied (`delta_cache=None`) never returns a
result: every such invocation raises (no zero delta is substituted). -/
theorem cache_skip_without_delta_never_returns
    (m : CacheModel) (hidden : Tensor) (encoder : Option Tensor)
    (residuals : Option (List Tensor)) (temb : Tensor) (cp : CacheParams)
    (dch : Option Tensor) :
    isSuccess (forward_blocks m hidden encoder residuals temb true true cp none dch)
      = false := by
  unfold forward_blocks
  cases hpre : forward_blocks_range m hidden encoder residuals temb 0 cp.cache_start with
  | error e => rfl
  | ok p =>
    obtain ⟨h1, e1⟩ := p
    cases e1 with
    | none => rfl
    | some t => rfl

/-- Claim C9: the executor's result does not depend on `cache_params[1]`
(`step_stride`) or `cache_params[3]` (`start_use_step`): two invocations
differing only in those two fields return identical values. -/
theorem executor_ignores_stride_and_start_step
    (m : CacheModel) (hidden : Tensor) (encoder : Option Tensor)
    (residuals : Option (List Tensor)) (temb : Tensor) (use_cache if_skip : Bool)
    (dc dch : Option Tensor) (cs ss wl su ss2 su2 : Nat) :
    forward_blocks m hidden encoder residuals temb use_cache if_skip ⟨cs, ss, wl, su⟩ dc dch
      = forward_blocks m hidden encoder residuals temb use_cache if_skip
          ⟨cs, ss2, wl, su2⟩ dc dch := rfl

/-- Claim C7: key/value spatial downsampling is applied if and only if the
flag is enabled and the stage's layer index is at or below the fixed
cutoff (the 12 layers of index 0..11); at index 11 it is applied, at index
12 it is skipped, and it is never applied with the flag disabled.  At a
concrete 12x12 grid the boundary is observable: index 11 shrinks the K/V
sequence (144 to 25), index 12 leaves it unchanged. -/
theorem downsample_gate_iff_enabled_and_at_most_cutoff :
    (∀ (idx : Nat) (ud : Bool) (h : Shape3),
        kv_input idx ud h
          = if ud = true ∧ idx ≤ 11 then downsample 2476979795053773 50 "bilinear" h else .ok h)
    ∧ (∀ (idx : Nat) (h : Shape3), idx ≤ 11 →
        kv_input idx true h = downsample 2476979795053773 50 "bilinear" h)
    ∧ (∀ h : Shape3, kv_input 11 true h = downsample 2476979795053773 50 "bilinear" h)
    ∧ (∀ h : Shape3, kv_input 12 true h = .ok h)
    ∧ (∀ (idx : Nat) (h : Shape3), kv_input idx false h = .ok h)
    ∧ kv_input 11 true ⟨1, 144, 4⟩ = .ok ⟨1, 25, 4⟩
    ∧ kv_input 12 true ⟨1, 144, 4⟩ = .ok ⟨1, 144, 4⟩ := by
  refine ⟨fun _ _ _ => rfl, ?_, fun h => rfl, fun h => rfl, fun idx h => ?_, rfl, rfl⟩
  · intro idx h hle
    unfold kv_input
    rw [if_pos ⟨rfl, hle⟩]
  · unfold kv_input
    rw [if_neg]
    intro hc
    exact Bool.false_ne_true hc.1

/-- Witness for C7 (the second conjunct carries a hypothesis): the gate at
layer index 3 with the flag enabled routes K/V through `downsample`. -/
theorem downsample_gate_iff_enabled_and_at_most_cutoff_witness :
    kv_input 3 true ⟨2, 9, 5⟩ = downsample 2476979795053773 50 "bilinear" ⟨2, 9, 5⟩ :=
  downsample_gate_iff_enabled_and_at_most_cutoff.2.1 3 ⟨2, 9, 5⟩ (by decide)

/-- Claim C8: whenever the joint attention processor returns, the primary
output's sequence length equals the primary input's sequence length,
whatever the downsampling flag and layer index: the joint result is split
at the original pre-downsampling primary sequence length and only the K/V
branch is ever shrunk. -/
theorem attention_preserves_primary_sequence_length
    (attn : AttnCfg) (hidden encoder : Shape3) (layer_idx : Nat) (ud : Bool)
    (hOut eOut : Shape3)
    (hok : jointAttnShape attn hidden encoder layer_idx ud = .ok (hOut, eOut)) :
    hOut.seq = hidden.seq := by
  unfold jointAttnShape at hok
  cases hkv : kv_input layer_idx ud hidden with
  | error e => rw [hkv] at hok; exact absurd hok (by simp)
  | ok hs =>
    rw [hkv] at hok
    dsimp only at hok
    cases hq : catSeq (proj attn.inner_dim hidden) (proj attn.inner_dim encoder) with
    | error e => rw [hq] at hok; exact absurd hok (by simp)
    | ok q2 =>
      rw [hq] at hok
      have hq2 : q2.seq = hidden.seq + encoder.seq := by
        unfold catSeq at hq
        split at hq
        · injection hq with h
          subst h
          rfl
        · exact absurd hq (by simp)
      cases hk : catSeq (proj attn.inner_dim hs) (proj attn.inner_dim encoder) with
      | error e => rw [hk] at hok; exact absurd hok (by simp)
      | ok k2 =>
        rw [hk] at hok
        dsimp only at hok
        cases hf : flashAttnShape (head_to_batch_dim attn.heads q2)
            (head_to_batch_dim attn.heads k2) (head_to_batch_dim attn.heads k2) with
        | error e => rw [hf] at hok; exact absurd hok (by simp)
        | ok att =>
          rw [hf] at hok
          have hatt : att.seq = q2.seq := by
            unfold flashAttnShape at hf
            split at hf
            · injection hf with h
              subst h
              rfl
            · exact absurd hf (by simp)
          simp only [proj, sliceSeqTo, sliceSeqFrom, batch_to_head_dim] at hok
          rw [Except.ok.injEq, Prod.mk.injEq] at hok
          rw [← hok.1]
          show min hidden.seq att.seq = hidden.seq
          rw [hatt, hq2]
          omega

/-- Witness for C8 at a concrete input with downsampling enabled. -/
theorem attention_preserves_primary_sequence_length_witness :
    jointAttnShape attnW ⟨1, 16, 4⟩ ⟨1, 3, 4⟩ 0 true = .ok (⟨1, 16, 5⟩, ⟨1, 3, 6⟩)
    ∧ (⟨1, 16, 5⟩ : Shape3).seq = (⟨1, 16, 4⟩ : Shape3).seq :=
  ⟨rfl, attention_preserves_primary_sequence_length attnW ⟨1, 16, 4⟩ ⟨1, 3, 4⟩ 0 true
    ⟨1, 16, 5⟩ ⟨1, 3, 6⟩ rfl⟩

set_option maxRecDepth 40000 in
/-- Claim C10 (counterexample): the claim fails twice.  On shape
`(1, 5, 1)` — sequence length 5 not a perfect square — `downsample`
raises at the internal reshape instead of silently dropping trailing
positions.  On shape `(1, 1089, 1)` — the perfect square `33 * 33` — the
program computes `int(33 / 2.2) = 14` in double arithmetic (the double
`2.2` lies above `11/5`, and `33 / 2.2` rounds below `15`), so the output
has `196` positions, not the `15 * 15 = 225` of the exact floor formula
`floor(h / 2.2)`. -/
theorem downsample_errors_on_non_square_length :
    downsample 2476979795053773 50 "bilinear" ⟨1, 5, 1⟩
      = .error "ValueError: cannot reshape, element count mismatch"
    ∧ downsample 2476979795053773 50 "bilinear" ⟨1, 1089, 1⟩ = .ok ⟨1, 196, 1⟩
    ∧ (196 : Nat) ≠ 15 * 15 :=
  ⟨rfl, rfl, by decide⟩

/-- Claim C10 (amended): `downsample` treats the sequence as an `h`-by-`h`
grid with `h = floor(sqrt(L))` and shrinks it by the hardcoded merge
factor 2.2 with bilinear interpolation; on a perfect-square `L` it returns
shape `(batch, n * n, channels)` with batch and channels preserved, where
`n = int(h / 2.2)` is evaluated in IEEE double arithmetic — equal to
`floor(h / 2.2)` for every `h` up to 32 but dipping below it at some
multiples of 11 (for example `h = 33` yields 14, not 15); on a non-square
`L` (nonzero batch and channels) the internal reshape fails on the
element-count mismatch rather than silently dropping trailing
positions. -/
theorem downsample_square_shape_and_non_square_failure :
    (∀ b L c : Nat, isqrt L * isqrt L = L →
        downsample 2476979795053773 50 "bilinear" ⟨b, L, c⟩
          = .ok ⟨b, float_int_div (isqrt L) 2476979795053773 50
                      * float_int_div (isqrt L) 2476979795053773 50, c⟩)
    ∧ (∀ b L c : Nat, 0 < b → 0 < c → isqrt L * isqrt L ≠ L →
        downsample 2476979795053773 50 "bilinear" ⟨b, L, c⟩
          = .error "ValueError: cannot reshape, element count mismatch")
    ∧ (∀ h : Nat, h ≤ 32 → float_int_div h 2476979795053773 50 = h * 10 / 22) := by
  refine ⟨?_, ?_, ?_⟩
  · intro b L c hsq
    simp [downsample, hsq]
  · intro b L c hb hc hsq
    have hne : ¬ (b * c * L = b * c * (isqrt L * isqrt L)) := by
      intro hcontra
      exact hsq (Nat.eq_of_mul_eq_mul_left (Nat.mul_pos hb hc) hcontra).symm
    simp only [downsample]
    rw [if_neg hne]
  · decide

/-- Witness for C10 (amended) at concrete inputs: a square length 16 maps
to 1 = int(4/2.2)^2 positions, a non-square length 10 raises, and the
double truncation agrees with the exact floor at h = 12. -/
theorem downsample_square_shape_and_non_square_failure_witness :
    downsample 2476979795053773 50 "bilinear" ⟨1, 16, 3⟩ = .ok ⟨1, 1, 3⟩
    ∧ downsample 2476979795053773 50 "bilinear" ⟨2, 10, 3⟩
        = .error "ValueError: cannot reshape, element count mismatch"
    ∧ float_int_div 12 2476979795053773 50 = 5 :=
  ⟨downsample_square_shape_and_non_square_failure.1 1 16 3 (by decide),
   downsample_square_shape_and_non_square_failure.2.1 2 10 3 (by decide) (by decide)
     (by decide),
   downsample_square_shape_and_non_square_failure.2.2 12 (by decide)⟩
